import Mathlib

/-
  Verification of the futureforms repository fragment:
  - src/src/core/src/model/relations/Key.ts          (class Key)
  - src/src/core/src/public/FieldProperties.ts        (class FieldProperties)
  - src/unnamed/part_000                              (class FormsModule)

  The TypeScript is shallowly embedded: nullable values become Option,
  the fatal-alert channel (Alert.fatal, whose implementation is outside
  the provided sources) is recorded as a list of (message, tag) pairs,
  and a thrown JavaScript exception becomes Except.error.  String
  lower-casing uses Lean's jsToLower; all identifiers in the
  claims are ASCII, where it agrees with JavaScript's toLowerCase.
-/

/-- A fatal-alert event: Alert.fatal(message, tag).  The Alert class is
not under src/, but every call site in the sources passes a message and
a component tag, which is all we record. -/
abbrev AlertEvent := String × String

/-- JavaScript's String.prototype.toLowerCase, restricted to the ASCII
range the repository's identifiers use.  (The toLower in Lean's core has
the same behaviour on ASCII but is defined by well-founded recursion
and so does not evaluate inside the kernel; this structurally recursive
version does.) -/
def jsToLower (s : String) : String := ⟨s.data.map Char.toLower⟩

/- ===================== Key.ts ===================== -/

/-- The block argument of the Key constructor: `block:string|Block`.
A Block handle (class Block, not under src/) is reduced by the
constructor to its `name` property, so we model it by that name. -/
inductive BlockArg where
  | str (s : String)
  | blk (name : String)

/-- The fields argument of the Key constructor: `fields:string|string[]`.
A JavaScript array may hold null elements, hence Option String inside
the list; a lone string argument cannot be null here because the
constructor's `fields == null` test handles that case (modelled by the
outer Option at the call). -/
inductive FieldsArg where
  | single (f : String)
  | list (fs : List (Option String))

/-- The state of a Key object: fields name$, block$, fields$ of Key.ts,
all initialized to null. -/
structure Key where
  name : Option String
  block : Option String
  fields : Option (List String)
deriving DecidableEq, Repr

deriving instance DecidableEq for Except

/-- The field initializers of Key.ts lines 27-29: everything null. -/
def Key.initial : Key := ⟨none, none, none⟩

/-- The in-place lower-casing loop of Key.ts lines 62-63.  Because
`this.fields$ = fields` (line 60) stores the very array the loop then
mutates, the stored fields end up lower-cased.  A null element makes
`fields[i].toLowerCase()` throw a TypeError, modelled as none. -/
def lowerFields : List (Option String) → Option (List String)
  | [] => some []
  | none :: _ => none
  | some f :: rest => (lowerFields rest).map (fun r => jsToLower f :: r)

/-- The Key constructor, Key.ts lines 32-64.  Returns the fatal alerts
raised and either the constructed state or Except.error () when the
constructor throws (which happens on a null field element, line 63). -/
def Key.construct (block : Option BlockArg) (fields : Option FieldsArg) :
    List AlertEvent × Except Unit Key :=
  match block with
  | none => ([("Invalid key definition, block: 'null'", "Key")], .ok Key.initial)
  | some b =>
    match fields with
    | none => ([("Invalid key definition, fields: 'null'", "Key")], .ok Key.initial)
    | some fa =>
      let fs : List (Option String) :=
        match fa with
        | .single f => [some f]
        | .list l => l
      if fs.length = 0 then
        ([("Invalid key definition, no fields", "Key")], .ok Key.initial)
      else
        let bname : String :=
          match b with
          | .str s => s
          | .blk n => n
        match lowerFields fs with
        | some lows =>
            ([], .ok { name := none, block := some (jsToLower bname), fields := some lows })
        | none => ([], .error ())

/-- Helper: lower-casing a list of non-null fields never throws and
maps jsToLower over it. -/
theorem lowerFields_map_some (F : List String) :
    lowerFields (F.map some) = some (F.map jsToLower) := by
  induction F with
  | nil => rfl
  | cons f rest ih => simp [lowerFields, ih]

/-- C1: constructing a Key from a non-null block string and a non-empty
list of non-null field strings succeeds with no alert; the stored block
is the lower-cased block, the stored fields are the lower-cased fields
in order, and the name is null. -/
theorem key_construct_success (B : String) (F : List String) (hF : F ≠ []) :
    Key.construct (some (BlockArg.str B)) (some (FieldsArg.list (F.map some))) =
      ([], Except.ok { name := none, block := some (jsToLower B),
                       fields := some (F.map jsToLower) }) := by
  simp [Key.construct, lowerFields_map_some, hF]

/-- C1 witness: the spec's own example, block "Orders" with fields
["OrderId", "CustomerId"]. -/
theorem key_construct_success_witness :
    Key.construct (some (BlockArg.str "Orders"))
        (some (FieldsArg.list (["OrderId", "CustomerId"].map some))) =
      ([], Except.ok { name := none, block := some (jsToLower "Orders"),
                       fields := some (["OrderId", "CustomerId"].map jsToLower) }) :=
  key_construct_success "Orders" ["OrderId", "CustomerId"] (by simp)

/-- C2 counterexample: the claim asserts that a block normalizing to the
empty string triggers the fatal-alert channel.  It does not: the
constructor only tests `block == null`, so block "" with fields ["f"]
raises no alert at all and even stores block "". -/
theorem key_empty_block_no_alert :
    (Key.construct (some (BlockArg.str "")) (some (FieldsArg.list [some "f"]))).1 = [] ∧
    (Key.construct (some (BlockArg.str "")) (some (FieldsArg.list [some "f"]))).2 =
      Except.ok { name := none, block := some "", fields := some ["f"] } := by
  constructor <;> decide

/-- C2 amended: a null block triggers the fatal-alert channel exactly
once (a fatal construction error, not an exception), whatever the
fields argument is; an empty block string is accepted silently. -/
theorem key_null_block_fatal :
    (∀ fields : Option FieldsArg,
        Key.construct none fields =
          ([("Invalid key definition, block: 'null'", "Key")], Except.ok Key.initial)) ∧
    (Key.construct (some (BlockArg.str "")) (some (FieldsArg.list [some "f"]))).2 ≠
      Except.error () := by
  refine ⟨fun fields => rfl, by decide⟩

/-- C3 counterexample: the claim asserts that a fields list containing a
null element triggers the fatal-alert channel and raises no
propagatable exception.  In fact the null element slips past every
check and `fields[i].toLowerCase()` throws: no alert, an exception. -/
theorem key_null_field_throws :
    (Key.construct (some (BlockArg.str "b"))
        (some (FieldsArg.list [some "f", none]))).1 = [] ∧
    (Key.construct (some (BlockArg.str "b"))
        (some (FieldsArg.list [some "f", none]))).2 = Except.error () := by
  constructor <;> rfl

/-- C3 amended: a null fields argument or an empty fields list triggers
the fatal-alert channel once without an exception, but a null element
inside the list is not caught: it raises a propagatable exception
(TypeError on lower-casing) with no fatal alert. -/
theorem key_fields_validation :
    (∀ b : BlockArg,
        Key.construct (some b) none =
          ([("Invalid key definition, fields: 'null'", "Key")], Except.ok Key.initial)) ∧
    (∀ b : BlockArg,
        Key.construct (some b) (some (FieldsArg.list [])) =
          ([("Invalid key definition, no fields", "Key")], Except.ok Key.initial)) ∧
    (Key.construct (some (BlockArg.str "b")) (some (FieldsArg.list [none])) =
      ([], Except.error ())) := by
  refine ⟨fun b => rfl, fun b => by cases b <;> rfl, rfl⟩

/-- C4: with a null block, a null fields argument, or an empty fields
list, construction raises the fatal-alert channel exactly once, throws
no exception, and leaves the Key not fully initialized: name, block and
fields all null. -/
theorem key_invalid_args_degraded (block : Option BlockArg) (fields : Option FieldsArg)
    (h : block = none ∨ fields = none ∨ fields = some (FieldsArg.list [])) :
    (Key.construct block fields).1.length = 1 ∧
    (Key.construct block fields).2 = Except.ok Key.initial := by
  rcases h with h | h | h
  · subst h; exact ⟨rfl, rfl⟩
  · subst h
    cases block with
    | none => exact ⟨rfl, rfl⟩
    | some b => exact ⟨rfl, rfl⟩
  · subst h
    cases block with
    | none => exact ⟨rfl, rfl⟩
    | some b => cases b <;> exact ⟨rfl, rfl⟩

/-- C4 witness: a null fields argument with block "orders". -/
theorem key_invalid_args_degraded_witness :
    (Key.construct (some (BlockArg.str "orders")) none).1.length = 1 ∧
    (Key.construct (some (BlockArg.str "orders")) none).2 = Except.ok Key.initial :=
  key_invalid_args_degraded (some (BlockArg.str "orders")) none (Or.inr (Or.inl rfl))

/-- C5: constructing with a single (non-list) field string f behaves
exactly like constructing with the one-element list [f], for every
block argument. -/
theorem key_single_field_eq_singleton (b : Option BlockArg) (f : String) :
    Key.construct b (some (FieldsArg.single f)) =
      Key.construct b (some (FieldsArg.list [some f])) := by
  cases b with
  | none => rfl
  | some b => rfl

/- ===================== FieldProperties.ts ===================== -/

/-- The DataType enum (src/view/fields/DataType.ts, not under src/),
modelled as an opaque numeric code. -/
abbrev DataType := Nat

/-- Modelled from the spec: the attribute record behind BasicProperties
(src/view/fields/BasicProperties.ts, not under src/).  Spec section 4.2
lists "tag, enabled, readonly, required, hidden, style map, class list,
attribute map, value, valid-value set, data mapper", plus the datatype
and derived flags that the poisoned setters guard. -/
structure BasicProperties where
  tag : String := ""
  datatype : DataType := 0
  enabled : Bool := false
  readonly : Bool := false
  derived : Bool := false
  required : Bool := false
  hidden : Bool := false
  styles : List (String × String) := []
  classes : List String := []
  attributes : List (String × Option String) := []
  value : String := ""
  validValues : List String := []
  mapper : Option String := none
deriving DecidableEq, Repr

/-- JavaScript Map.set on an association list: the binding visible for
the key is replaced. -/
def jsMapSet {α : Type} (m : List (String × α)) (k : String) (v : α) :
    List (String × α) :=
  (k, v) :: m.filter (fun e => e.1 != k)

/-- JavaScript Map.get on an association list (undefined becomes none). -/
def jsMapGet {α : Type} (m : List (String × α)) (k : String) : Option α :=
  (m.find? (fun e => e.1 == k)).map (fun e => e.2)

/-- JavaScript Map.delete on an association list. -/
def jsMapRemove {α : Type} (m : List (String × α)) (k : String) :
    List (String × α) :=
  m.filter (fun e => e.1 != k)

/-- A heap of FieldProperties objects, capturing JavaScript reference
semantics: an object is a cell index, a setter mutates its cell in
place and returns `this`, and clone allocates a fresh cell. -/
structure PropHeap where
  cells : List BasicProperties
deriving DecidableEq, Repr

def PropHeap.get (h : PropHeap) (r : Nat) : BasicProperties :=
  h.cells.getD r {}

def PropHeap.set (h : PropHeap) (r : Nat) (b : BasicProperties) : PropHeap :=
  ⟨h.cells.set r b⟩

def PropHeap.alloc (h : PropHeap) (b : BasicProperties) : PropHeap × Nat :=
  (⟨h.cells ++ [b]⟩, h.cells.length)

/-- The FieldProperties constructor, lines 34-40: a fresh object with
default attributes, then, for a non-null source, the basic attributes
are copied over.  FieldFeatureFactory.copyBasic is not under src/;
modelled from the spec (clone "produces an independent copy by
re-running the copy-constructor path", "no shared mutable backing
state") as a full value copy of the attribute record. -/
def FieldProperties.new (h : PropHeap) (props : Option Nat) : PropHeap × Nat :=
  match props with
  | none => h.alloc {}
  | some src => h.alloc (h.get src)

/-- FieldProperties.clone, lines 42-45: new FieldProperties(this). -/
def FieldProperties.clone (h : PropHeap) (self : Nat) : PropHeap × Nat :=
  FieldProperties.new h (some self)

/-- setTag, lines 48-52. -/
def FieldProperties.setTag (h : PropHeap) (self : Nat) (tag : String) :
    PropHeap × Nat :=
  (h.set self { h.get self with tag := tag }, self)

/-- setType, lines 55-59: poisoned, only raises the fatal alert. -/
def FieldProperties.setType (h : PropHeap) (self : Nat) (_t : DataType) :
    PropHeap × Nat × List AlertEvent :=
  (h, self, [("Data type cannot be changed", "Properties")])

/-- setEnabled, lines 61-65. -/
def FieldProperties.setEnabled (h : PropHeap) (self : Nat) (flag : Bool) :
    PropHeap × Nat :=
  (h.set self { h.get self with enabled := flag }, self)

/-- setReadOnly, lines 67-71. -/
def FieldProperties.setReadOnly (h : PropHeap) (self : Nat) (flag : Bool) :
    PropHeap × Nat :=
  (h.set self { h.get self with readonly := flag }, self)

/-- setDerived, lines 74-78: poisoned, only raises the fatal alert. -/
def FieldProperties.setDerived (h : PropHeap) (self : Nat) (_flag : Bool) :
    PropHeap × Nat × List AlertEvent :=
  (h, self, [("Derived cannot be changed", "Properties")])

/-- setRequired, lines 80-84. -/
def FieldProperties.setRequired (h : PropHeap) (self : Nat) (flag : Bool) :
    PropHeap × Nat :=
  (h.set self { h.get self with required := flag }, self)

/-- setHidden, lines 86-90. -/
def FieldProperties.setHidden (h : PropHeap) (self : Nat) (flag : Bool) :
    PropHeap × Nat :=
  (h.set self { h.get self with hidden := flag }, self)

/-- setStyle, lines 92-96, delegating to super.setStyle; the
BasicProperties body is not under src/ and is modelled from the spec's
"style map" as a map update. -/
def FieldProperties.setStyle (h : PropHeap) (self : Nat) (style val : String) :
    PropHeap × Nat :=
  (h.set self { h.get self with styles := jsMapSet (h.get self).styles style val }, self)

/-- setStyles, lines 98-102: the styles property is replaced wholesale;
the property's representation lives in BasicProperties (not under src/)
and is modelled from the spec as the style map, so the argument stands
for the parsed style string. -/
def FieldProperties.setStyles (h : PropHeap) (self : Nat) (styles : List (String × String)) :
    PropHeap × Nat :=
  (h.set self { h.get self with styles := styles }, self)

/-- removeStyle, lines 104-108, delegating to super.removeStyle
(modelled from the spec as a map removal). -/
def FieldProperties.removeStyle (h : PropHeap) (self : Nat) (style : String) :
    PropHeap × Nat :=
  (h.set self { h.get self with styles := jsMapRemove (h.get self).styles style }, self)

/-- setClass, lines 110-114, delegating to super.setClass (modelled
from the spec's "class list" as appending the class). -/
def FieldProperties.setClass (h : PropHeap) (self : Nat) (clazz : String) :
    PropHeap × Nat :=
  (h.set self { h.get self with classes := (h.get self).classes ++ [clazz] }, self)

/-- setClasses, lines 116-120, delegating to super.setClasses (modelled
from the spec as replacing the class list). -/
def FieldProperties.setClasses (h : PropHeap) (self : Nat) (classes : List String) :
    PropHeap × Nat :=
  (h.set self { h.get self with classes := classes }, self)

/-- removeClass, lines 122-126, delegating to super.removeClass
(modelled from the spec as removing the class from the list). -/
def FieldProperties.removeClass (h : PropHeap) (self : Nat) (clazz : String) :
    PropHeap × Nat :=
  (h.set self { h.get self with classes := (h.get self).classes.filter (fun c => c != clazz) }, self)

/-- setAttribute, lines 128-132, delegating to super.setAttribute
(modelled from the spec's "attribute map"; the value is optional). -/
def FieldProperties.setAttribute (h : PropHeap) (self : Nat) (attr : String) (val : Option String) :
    PropHeap × Nat :=
  (h.set self { h.get self with attributes := jsMapSet (h.get self).attributes attr val }, self)

/-- setAttributes, lines 134-138, delegating to super.setAttributes
(modelled from the spec as replacing the attribute map). -/
def FieldProperties.setAttributes (h : PropHeap) (self : Nat) (attrs : List (String × Option String)) :
    PropHeap × Nat :=
  (h.set self { h.get self with attributes := attrs }, self)

/-- removeAttribute, lines 140-144, delegating to super.removeAttribute
(modelled from the spec as a map removal). -/
def FieldProperties.removeAttribute (h : PropHeap) (self : Nat) (attr : String) :
    PropHeap × Nat :=
  (h.set self { h.get self with attributes := jsMapRemove (h.get self).attributes attr }, self)

/-- setValue, lines 146-150. -/
def FieldProperties.setValue (h : PropHeap) (self : Nat) (val : String) :
    PropHeap × Nat :=
  (h.set self { h.get self with value := val }, self)

/-- setValidValues, lines 152-156 (the valid-value collection is
modelled as a list of strings). -/
def FieldProperties.setValidValues (h : PropHeap) (self : Nat) (vals : List String) :
    PropHeap × Nat :=
  (h.set self { h.get self with validValues := vals }, self)

/-- setMapper, lines 158-163, delegating to super.setMapper (modelled
from the spec's "data mapper" as storing the mapper reference). -/
def FieldProperties.setMapper (h : PropHeap) (self : Nat) (mapper : String) :
    PropHeap × Nat :=
  (h.set self { h.get self with mapper := some mapper }, self)

/-- Helper: reading the cell just written, inside bounds. -/
theorem listGetD_set_self {α : Type} :
    ∀ (l : List α) (i : Nat) (b d : α), i < l.length → (l.set i b).getD i d = b
  | _ :: _, 0, _, _, _ => rfl
  | _ :: l, i + 1, b, d, h => listGetD_set_self l i b d (Nat.lt_of_succ_lt_succ h)

/-- Helper: writing one cell leaves every other cell unchanged. -/
theorem listGetD_set_ne {α : Type} :
    ∀ (l : List α) (i j : Nat) (b d : α), j ≠ i → (l.set i b).getD j d = l.getD j d
  | [], _, _, _, _, _ => rfl
  | _ :: _, 0, 0, _, _, h => absurd rfl h
  | _ :: _, 0, _ + 1, _, _, _ => rfl
  | _ :: _, _ + 1, 0, _, _, _ => rfl
  | _ :: l, i + 1, j + 1, b, d, h =>
      listGetD_set_ne l i j b d (fun hji => h (congrArg Nat.succ hji))

/-- Helper: appending a cell leaves the existing cells unchanged. -/
theorem listGetD_append_lt {α : Type} :
    ∀ (l : List α) (b d : α) (i : Nat), i < l.length → (l ++ [b]).getD i d = l.getD i d
  | _ :: _, _, _, 0, _ => rfl
  | _ :: l, b, d, i + 1, h => listGetD_append_lt l b d i (Nat.lt_of_succ_lt_succ h)

/-- Helper: reading the freshly appended cell. -/
theorem listGetD_append_self {α : Type} :
    ∀ (l : List α) (b d : α), (l ++ [b]).getD l.length d = b
  | [], _, _ => rfl
  | _ :: l, b, d => listGetD_append_self l b d

/-- What a well-behaved in-place setter does: it returns `this` (the
same object), the object's attribute record becomes exactly the given
one, and every other object on the heap is untouched. -/
def SetterEffect (h : PropHeap) (self : Nat) (out : PropHeap × Nat)
    (b : BasicProperties) : Prop :=
  out.2 = self ∧
  out.1.get self = b ∧
  ∀ o : Nat, o ≠ self → out.1.get o = h.get o

/-- Helper: an in-place update of a valid cell satisfies SetterEffect. -/
theorem setterEffect_update (h : PropHeap) (self : Nat)
    (hv : self < h.cells.length) (b : BasicProperties) :
    SetterEffect h self (h.set self b, self) b :=
  ⟨rfl, listGetD_set_self h.cells self b {} hv,
   fun o ho => listGetD_set_ne h.cells self o b {} ho⟩

/-- C6: setType and setDerived always invoke the fatal-alert channel
with the source's message and component tag, return the same instance,
and leave the heap unchanged, so the datatype, the derived flag, and
every other attribute of every FieldProperties object are untouched. -/
theorem fieldprops_poisoned_setters (h : PropHeap) (self : Nat)
    (t : DataType) (flag : Bool) :
    FieldProperties.setType h self t =
      (h, self, [("Data type cannot be changed", "Properties")]) ∧
    FieldProperties.setDerived h self flag =
      (h, self, [("Derived cannot be changed", "Properties")]) :=
  ⟨rfl, rfl⟩

/-- C7: every fluent setter other than setType and setDerived returns
the very instance it was called on, rewrites exactly its corresponding
attribute (for the plain setters, to the supplied value; for the
collection setters, by the corresponding map/list update), and leaves
every other attribute of the record and every other object unchanged. -/
theorem fieldprops_fluent_setters (h : PropHeap) (self : Nat)
    (hv : self < h.cells.length)
    (s sv c a v m : String) (flag : Bool) (av : Option String)
    (sts : List (String × String)) (cs vs : List String)
    (ats : List (String × Option String)) :
    SetterEffect h self (FieldProperties.setTag h self s)
      { h.get self with tag := s } ∧
    SetterEffect h self (FieldProperties.setEnabled h self flag)
      { h.get self with enabled := flag } ∧
    SetterEffect h self (FieldProperties.setReadOnly h self flag)
      { h.get self with readonly := flag } ∧
    SetterEffect h self (FieldProperties.setRequired h self flag)
      { h.get self with required := flag } ∧
    SetterEffect h self (FieldProperties.setHidden h self flag)
      { h.get self with hidden := flag } ∧
    SetterEffect h self (FieldProperties.setStyle h self s sv)
      { h.get self with styles := jsMapSet (h.get self).styles s sv } ∧
    SetterEffect h self (FieldProperties.setStyles h self sts)
      { h.get self with styles := sts } ∧
    SetterEffect h self (FieldProperties.removeStyle h self s)
      { h.get self with styles := jsMapRemove (h.get self).styles s } ∧
    SetterEffect h self (FieldProperties.setClass h self c)
      { h.get self with classes := (h.get self).classes ++ [c] } ∧
    SetterEffect h self (FieldProperties.setClasses h self cs)
      { h.get self with classes := cs } ∧
    SetterEffect h self (FieldProperties.removeClass h self c)
      { h.get self with classes := (h.get self).classes.filter (fun x => x != c) } ∧
    SetterEffect h self (FieldProperties.setAttribute h self a av)
      { h.get self with attributes := jsMapSet (h.get self).attributes a av } ∧
    SetterEffect h self (FieldProperties.setAttributes h self ats)
      { h.get self with attributes := ats } ∧
    SetterEffect h self (FieldProperties.removeAttribute h self a)
      { h.get self with attributes := jsMapRemove (h.get self).attributes a } ∧
    SetterEffect h self (FieldProperties.setValue h self v)
      { h.get self with value := v } ∧
    SetterEffect h self (FieldProperties.setValidValues h self vs)
      { h.get self with validValues := vs } ∧
    SetterEffect h self (FieldProperties.setMapper h self m)
      { h.get self with mapper := some m } :=
  ⟨setterEffect_update h self hv _, setterEffect_update h self hv _,
   setterEffect_update h self hv _, setterEffect_update h self hv _,
   setterEffect_update h self hv _, setterEffect_update h self hv _,
   setterEffect_update h self hv _, setterEffect_update h self hv _,
   setterEffect_update h self hv _, setterEffect_update h self hv _,
   setterEffect_update h self hv _, setterEffect_update h self hv _,
   setterEffect_update h self hv _, setterEffect_update h self hv _,
   setterEffect_update h self hv _, setterEffect_update h self hv _,
   setterEffect_update h self hv _⟩

/-- C7 witness: on a one-object heap, setTag "input" returns the same
instance, stores the tag, and changes nothing else. -/
theorem fieldprops_fluent_setters_witness :
    SetterEffect ⟨[{}]⟩ 0 (FieldProperties.setTag ⟨[{}]⟩ 0 "input")
      { PropHeap.get ⟨[{}]⟩ 0 with tag := "input" } ∧
    SetterEffect ⟨[{}]⟩ 0 (FieldProperties.setValue ⟨[{}]⟩ 0 "x")
      { PropHeap.get ⟨[{}]⟩ 0 with value := "x" } :=
  ⟨(fieldprops_fluent_setters ⟨[{}]⟩ 0 (by decide) "input" "" "" "" "x" "" true
      none [] [] [] []).1,
   (fieldprops_fluent_setters ⟨[{}]⟩ 0 (by decide) "input" "" "" "" "x" "" true
      none [] [] [] []).2.2.2.2.2.2.2.2.2.2.2.2.2.2.1⟩

/-- C8: clone yields a distinct object whose attribute snapshot equals
the source's; the two share no backing state: any in-place overwrite of
the clone's cell (the effect of every mutating setter) leaves the
original object's attributes exactly as they were. -/
theorem fieldprops_clone_independent (h : PropHeap) (self : Nat)
    (hv : self < h.cells.length) :
    (FieldProperties.clone h self).2 ≠ self ∧
    (FieldProperties.clone h self).1.get (FieldProperties.clone h self).2 =
      h.get self ∧
    (FieldProperties.clone h self).1.get self = h.get self ∧
    (∀ b : BasicProperties,
      (((FieldProperties.clone h self).1.set (FieldProperties.clone h self).2 b).get self) =
        h.get self) ∧
    (∀ s : String,
      ((FieldProperties.setTag (FieldProperties.clone h self).1
          (FieldProperties.clone h self).2 s).1.get self) = h.get self) := by
  refine ⟨Nat.ne_of_gt hv, listGetD_append_self h.cells (h.get self) {},
          listGetD_append_lt h.cells (h.get self) {} self hv, ?_, ?_⟩
  · intro b
    have hne : self ≠ h.cells.length := Nat.ne_of_lt hv
    calc ((FieldProperties.clone h self).1.set h.cells.length b).get self
        = (FieldProperties.clone h self).1.get self :=
          listGetD_set_ne _ h.cells.length self b {} hne
      _ = h.get self := listGetD_append_lt h.cells (h.get self) {} self hv
  · intro s
    have hne : self ≠ h.cells.length := Nat.ne_of_lt hv
    simp only [FieldProperties.setTag, FieldProperties.clone, FieldProperties.new,
               PropHeap.alloc, PropHeap.set, PropHeap.get]
    rw [listGetD_set_ne _ _ _ _ _ hne, listGetD_append_lt h.cells _ _ self hv]

/-- C8 witness: on a one-object heap holding a tagged record, the clone
is a different object with an equal snapshot, and overwriting the clone
leaves the original's record intact. -/
theorem fieldprops_clone_independent_witness :
    (FieldProperties.clone ⟨[{ tag := "div" }]⟩ 0).2 ≠ 0 ∧
    (FieldProperties.clone ⟨[{ tag := "div" }]⟩ 0).1.get
        (FieldProperties.clone ⟨[{ tag := "div" }]⟩ 0).2 =
      PropHeap.get ⟨[{ tag := "div" }]⟩ 0 :=
  ⟨(fieldprops_clone_independent ⟨[{ tag := "div" }]⟩ 0 (by decide)).1,
   (fieldprops_clone_independent ⟨[{ tag := "div" }]⟩ 0 (by decide)).2.1⟩

/- ===================== FormsModule (src/unnamed/part_000) ===================== -/

/-- The static/global state touched by FormsModule construction: the
static `instance` field, plus instrumentation counting how many times
the constructor body (dates.validate(), KeyMapping.init(),
ApplicationHandler.init() — all outside the provided sources) has run,
and an allocation counter identifying object instances. -/
structure ModuleState where
  singletonRef : Option Nat
  ctorRuns : Nat
  nextOid : Nat
deriving DecidableEq, Repr

/-- The pristine process state: FormsModule.instance is unset and the
constructor has never run. -/
def ModuleState.start : ModuleState := ⟨none, 0, 0⟩

/-- `new FormsModule()`, lines 63-69: runs the one-time side effects
and installs the new object as the singleton, replacing any previous
one.  Returns the new instance. -/
def FormsModule.construct (s : ModuleState) : ModuleState × Nat :=
  (⟨some s.nextOid, s.ctorRuns + 1, s.nextOid + 1⟩, s.nextOid)

/-- FormsModule.get, lines 50-55: lazily construct on first access,
then return the stored singleton. -/
def FormsModule.get (s : ModuleState) : ModuleState × Nat :=
  match s.singletonRef with
  | some i => (s, i)
  | none => FormsModule.construct s

/-- The FormsModule operations a client can perform on the static
state: call the accessor or invoke the (public) constructor directly. -/
inductive MOp where
  | access
  | construct
deriving DecidableEq, Repr

/-- One client step. -/
def moduleStep (s : ModuleState) : MOp → ModuleState × Nat
  | .access => FormsModule.get s
  | .construct => FormsModule.construct s

/-- Run a sequence of client operations, collecting the instance
returned by each. -/
def runOps (s : ModuleState) : List MOp → ModuleState × List Nat
  | [] => (s, [])
  | op :: rest =>
    let r := moduleStep s op
    let rr := runOps r.1 rest
    (rr.1, r.2 :: rr.2)

/-- C9 counterexample: the claim says the constructor's one-time side
effects run exactly once across the entire process lifetime.  But the
constructor is public: in the run access-construct-access the effects
run twice, and the two calls to the accessor return different
instances (0, then 1), because the direct construction replaced the
singleton. -/
theorem formsmodule_reinit_counterexample :
    (runOps ModuleState.start [MOp.access, MOp.construct, MOp.access]).1.ctorRuns = 2 ∧
    (runOps ModuleState.start [MOp.access, MOp.construct, MOp.access]).2 = [0, 1, 1] ∧
    ¬ ((0 : Nat) = 1) := by
  refine ⟨rfl, rfl, by decide⟩

/-- Helper: once the singleton from the first access is installed,
further accesses return it and change nothing. -/
theorem runOps_access_fixed (m : Nat) :
    runOps ⟨some 0, 1, 1⟩ (List.replicate m MOp.access) =
      (⟨some 0, 1, 1⟩, List.replicate m 0) := by
  induction m with
  | zero => rfl
  | succ m ih => simp [List.replicate, runOps, moduleStep, FormsModule.get, ih]

/-- C9 amended: in a process that reaches FormsModule only through the
accessor, every call returns the identical instance (the one allocated
first) and the constructor side effects run exactly once, on the first
access; a direct constructor invocation, however, reruns the side
effects and replaces the singleton. -/
theorem formsmodule_singleton_get_only (n : Nat) :
    runOps ModuleState.start (List.replicate (n + 1) MOp.access) =
      (⟨some 0, 1, 1⟩, List.replicate (n + 1) 0) := by
  simp [List.replicate, runOps, moduleStep, FormsModule.get, ModuleState.start,
        FormsModule.construct, runOps_access_fixed n]

/- ----- mapComponent / getComponent / getFormPath ----- -/

/-- A JavaScript class value as FormsModule uses it: its `name`
property, plus an identity so that distinct classes with equal names
stay distinct. -/
structure JsClass where
  cid : Nat
  name : String
deriving DecidableEq, Repr

/-- The static maps of the Components registry
(src/application/Components.ts, not under src/; the two calls in
mapComponent show it holds a path-to-class map `classmap` and a
class-name-to-path map `classurl`). -/
structure Components where
  classmap : List (String × JsClass)
  classurl : List (String × String)
deriving DecidableEq, Repr

/-- FormsModule.mapComponent, lines 109-120. -/
def FormsModule.mapComponent (st : Components) (clazz : Option JsClass)
    (path : Option String) : Components :=
  match clazz with
  | none => st
  | some c =>
    let p := jsToLower (path.getD c.name)
    { classmap := jsMapSet st.classmap p c,
      classurl := jsMapSet st.classurl (jsToLower c.name) p }

/-- FormsModule.getFormPath, lines 123-132 (static; accepts a class or
a class-name string, null yielding null). -/
def FormsModule.getFormPath (st : Components) (clazz : Option (JsClass ⊕ String)) :
    Option String :=
  match clazz with
  | none => none
  | some (Sum.inl c) => jsMapGet st.classurl (jsToLower c.name)
  | some (Sum.inr s) => jsMapGet st.classurl (jsToLower s)

/-- FormsModule.getComponent, lines 135-138. -/
def FormsModule.getComponent (st : Components) (path : String) : Option JsClass :=
  jsMapGet st.classmap (jsToLower path)

/-- Helper: looking up the key just written in a JavaScript map. -/
theorem jsMapGet_set_self {α : Type} (m : List (String × α)) (k : String) (v : α) :
    jsMapGet (jsMapSet m k v) k = some v := by
  simp [jsMapGet, jsMapSet, List.find?]

/-- C10: after mapComponent(C, p), getComponent returns C for every
path equal to p up to letter case and getFormPath(C) returns the
lower-cased p; an omitted path defaults to the class's own name; a
null class makes mapComponent a no-op. -/
theorem formsmodule_mapping_roundtrip (st : Components) (C : JsClass)
    (p q : String) (hq : jsToLower q = jsToLower p) :
    FormsModule.getComponent (FormsModule.mapComponent st (some C) (some p)) q =
      some C ∧
    FormsModule.getFormPath (FormsModule.mapComponent st (some C) (some p))
      (some (Sum.inl C)) = some (jsToLower p) ∧
    FormsModule.mapComponent st (some C) none =
      FormsModule.mapComponent st (some C) (some C.name) ∧
    FormsModule.mapComponent st none (some p) = st ∧
    FormsModule.mapComponent st none none = st := by
  refine ⟨?_, ?_, rfl, rfl, rfl⟩
  · simp [FormsModule.getComponent, FormsModule.mapComponent, hq,
          jsMapGet_set_self]
  · simp [FormsModule.getFormPath, FormsModule.mapComponent, jsMapGet_set_self]

/-- C10 witness: mapping a class named "CustomerForm" to path "Forms/Cust"
and reading it back through a differently-cased path. -/
theorem formsmodule_mapping_roundtrip_witness :
    FormsModule.getComponent
        (FormsModule.mapComponent ⟨[], []⟩ (some ⟨7, "CustomerForm"⟩)
          (some "Forms/Cust")) "FORMS/CUST" = some ⟨7, "CustomerForm"⟩ ∧
    FormsModule.getFormPath
        (FormsModule.mapComponent ⟨[], []⟩ (some ⟨7, "CustomerForm"⟩)
          (some "Forms/Cust")) (some (Sum.inl ⟨7, "CustomerForm"⟩)) =
      some (jsToLower "Forms/Cust") :=
  ⟨(formsmodule_mapping_roundtrip ⟨[], []⟩ ⟨7, "CustomerForm"⟩
      "Forms/Cust" "FORMS/CUST" (by decide)).1,
   (formsmodule_mapping_roundtrip ⟨[], []⟩ ⟨7, "CustomerForm"⟩
      "Forms/Cust" "FORMS/CUST" (by decide)).2.1⟩
